import Mathlib

/-!
Verification development for the LangGraph memory-store file system
(`src/database/file_store.py`, `src/database/store_factory.py`,
`src/database/redis_langgraph_client.py`, `src/core/settings.py`,
`src/core/file_config.py`).

The store layer is embedded shallowly: the backend key-value store is an
explicit state (a list of `(namespace, key, item)` rows for the single
configured tenant), each operation is a pure function from configuration and
state to a new state, a trace of backend primitive calls, and an
`Except`-typed result mirroring the Python exceptions.
-/

/-- Values stored in the backend, modelling the Python objects a record's
`value` can hold (`dict`, `str`, `int`, `bool`, `None`). -/
inductive PyValue where
  | dict (fields : List (String × PyValue))
  | str (s : String)
  | int (n : Int)
  | bool (b : Bool)
  | none

/-- Whether a value is a dictionary, modelling `isinstance(v, dict)`. -/
def PyValue.isDict : PyValue → Bool
  | .dict _ => true
  | _ => false

/-- Model of Python `str(v)` for the value shapes above.  `get_memory` applies
it only to non-`dict` values, so the `dict` branch is unreachable there; its
exact text is irrelevant to every theorem below. -/
def pyStr : PyValue → String
  | .str s => s
  | .int n => toString n
  | .bool b => if b then "True" else "False"
  | .none => "None"
  | .dict _ => "\x7b...\x7d"

/-- ASCII model of Python `str.lower` on one character (`Char.toLower` lowers
exactly the ASCII uppercase letters, which agrees with Python on every
character relevant to the strings compared below). -/
def pyLowerChar (c : Char) : Char := c.toLower

/-- Model of Python `s.lower()`. -/
def pyLowerStr (s : String) : String := String.mk (s.toList.map pyLowerChar)

/-- Whether the pattern `p` is a prefix of `s` (character lists). -/
def hasPrefixL : List Char → List Char → Bool
  | _, [] => true
  | [], _ :: _ => false
  | c :: cs, d :: ds => c == d && hasPrefixL cs ds

/-- Whether the pattern `p` occurs as a contiguous substring of `s`
(character lists), modelling Python `p in s`. -/
def containsL : List Char → List Char → Bool
  | [], p => p.isEmpty
  | c :: cs, p => hasPrefixL (c :: cs) p || containsL cs p

/-- Model of Python `needle in haystack` on strings. -/
def pyContains (haystack needle : String) : Bool :=
  containsL haystack.toList needle.toList

/-- Characters of the identifier character class `[a-zA-Z0-9_-]`. -/
def isIdentChar (c : Char) : Bool :=
  ('a' ≤ c && c ≤ 'z') || ('A' ≤ c && c ≤ 'Z') || ('0' ≤ c && c ≤ '9')
    || c == '_' || c == '-'

/-- Model of Python `re.compile(r'^[a-zA-Z0-9_-]+$').match(s)` being truthy
(`FileStore._validate_pattern`).  Python's `$` (without `re.MULTILINE`)
matches at the end of the string or just before a newline at the end of the
string, so the pattern also accepts a non-empty run of identifier characters
followed by one final `'\n'`. -/
def reMatchIdentPattern (s : String) : Bool :=
  let cs := s.toList
  (!cs.isEmpty && cs.all isIdentChar)
    || (!cs.dropLast.isEmpty && cs.dropLast.all isIdentChar
          && cs.getLast? == some '\n')

/-- Typed error taxonomy of the store layer, mirroring the exceptions raised
by `FileStore` (`ValueError` for malformed identifiers, `PermissionError` for
the namespace gate and for read-only violations, `FileNotFoundError` for a
missing record). -/
inductive StoreError where
  | invalidIdentifier (label got : String)
  | namespaceNotAllowed (ns : String)
  | readOnlyViolation (path : String)
  | recordNotFound (ns key : String)
deriving DecidableEq

/-- Embedding of `FileStore._validate_identifier`: reject the empty string,
otherwise accept exactly when the compiled pattern matches. -/
def validate_identifier (identifier label : String) : Except StoreError Unit :=
  if identifier.isEmpty then .error (.invalidIdentifier label identifier)
  else if reMatchIdentPattern identifier then .ok ()
  else .error (.invalidIdentifier label identifier)

/-- Embedding of `FileConfig.validate_file_name` from `core/file_config.py`:
`v.replace('-', '').replace('_', '').isalnum()` after a non-emptiness check
(Python `''.isalnum()` is `False`, so stripping to nothing also rejects). -/
def validate_file_name (v : String) : Except String String :=
  if v.isEmpty then .error "file_name cannot be empty"
  else
    let stripped := v.toList.filter (fun c => !(c == '-' || c == '_'))
    if !stripped.isEmpty && stripped.all Char.isAlphanum then .ok v
    else .error ("file_name must contain only alphanumeric characters, hyphens, and underscores. Got: " ++ v)

/-- Static configuration visible to the store layer: the tenant id
(`settings.USER_ID`), the parsed allow-list (`settings.get_allowed_files()`)
and the parsed read-only list (`settings.get_read_only_files()`). -/
structure Config where
  userId : String
  allowedFiles : List String
  readOnlyFiles : List String

/-- Embedding of `FileStore._is_namespace_allowed`: reads the allow-list,
returns `True` when it is empty, and returns `True` otherwise too (the
namespace-level gate is a documented no-op). -/
def is_namespace_allowed (cfg : Config) (_ns : String) : Bool :=
  let allowed := cfg.allowedFiles
  if allowed.isEmpty then true
  else true

/-- Embedding of `FileStore._is_read_only`: membership of
`"namespace/key"` in the configured read-only list (exact, case-sensitive). -/
def is_read_only (cfg : Config) (ns key : String) : Bool :=
  cfg.readOnlyFiles.contains (ns ++ "/" ++ key)

/-- One stored record: its value and the backend-assigned timestamps. -/
structure Item where
  value : PyValue
  created_at : Nat
  updated_at : Nat

/-- The backend state for the single configured tenant: rows of
`(namespace, key, item)` in insertion order. -/
structure StoreState where
  records : List (String × String × Item)

/-- Backend primitive `store.aget((USER_ID, ns), key)`. -/
def StoreState.aget (st : StoreState) (ns key : String) : Option Item :=
  (st.records.find? (fun r => r.1 == ns && r.2.1 == key)).map (fun r => r.2.2)

/-- Creation timestamp an upsert at `now` leaves on the row: preserved when
the row exists, `now` otherwise. -/
def createdOf (st : StoreState) (ns key : String) (now : Nat) : Nat :=
  match st.aget ns key with
  | some old => old.created_at
  | Option.none => now

/-- Backend primitive `store.aput((USER_ID, ns), key, value)`: an upsert that
overwrites the value, preserves `created_at` for an existing row and stamps
`updated_at` with the backend clock `now`. -/
def StoreState.aput (st : StoreState) (ns key : String) (v : PyValue) (now : Nat) :
    StoreState :=
  ⟨st.records.filter (fun r => !(r.1 == ns && r.2.1 == key))
    ++ [(ns, key, ⟨v, createdOf st ns key now, now⟩)]⟩

/-- Backend primitive `store.asearch((USER_ID, ns))`: all rows under the
namespace, as `(key, item)` pairs in store order. -/
def StoreState.searchNs (st : StoreState) (ns : String) : List (String × Item) :=
  (st.records.filter (fun r => r.1 == ns)).map (fun r => (r.2.1, r.2.2))

/-- Trace entry for one backend primitive invocation. -/
inductive PrimCall where
  | searchAllCall
  | searchNsCall (ns : String)
  | getCall (ns key : String)
  | putCall (ns key : String)
deriving DecidableEq

/-- Outcome of one store operation: the backend state afterwards, the backend
primitives invoked (in order), and the returned value or raised error. -/
structure OpOut (α : Type) where
  state : StoreState
  calls : List PrimCall
  result : Except StoreError α

/-- Result shape of `FileStore.get_memory`. -/
structure GetResult where
  nspace : String
  key : String
  content : PyValue
  is_read_only : Bool
  created_at : Nat
  updated_at : Nat

/-- Result shape of `FileStore.put_memory` / `update_memory`. -/
structure PutResult where
  nspace : String
  key : String
  success : Bool
  message : String
  created_at : Option Nat
  updated_at : Option Nat

/-- Entry of a `FileStore.list_memories` result. -/
structure MemoryMeta where
  key : String
  nspace : String
  is_read_only : Bool
  created_at : Nat
  updated_at : Nat

/-- Entry of a `FileStore.list_namespaces` result. -/
structure NsInfo where
  name : String
  file_count : Nat

/-- Content extraction in `get_memory`:
`item.value.get("content", "") if isinstance(item.value, dict) else str(item.value)`. -/
def extractContent (v : PyValue) : PyValue :=
  match v with
  | .dict fs =>
    match fs.lookup "content" with
    | some x => x
    | Option.none => .str ""
  | _ => .str (pyStr v)

/-- Embedding of `FileStore.get_memory`. -/
def get_memory (cfg : Config) (st : StoreState) (ns key : String) :
    OpOut GetResult :=
  match validate_identifier ns "namespace" with
  | .error e => ⟨st, [], .error e⟩
  | .ok _ =>
  match validate_identifier key "key" with
  | .error e => ⟨st, [], .error e⟩
  | .ok _ =>
  if !(is_namespace_allowed cfg ns) then ⟨st, [], .error (.namespaceNotAllowed ns)⟩
  else
    match st.aget ns key with
    | Option.none => ⟨st, [.getCall ns key], .error (.recordNotFound ns key)⟩
    | some item =>
      ⟨st, [.getCall ns key],
        .ok ⟨ns, key, extractContent item.value, is_read_only cfg ns key,
          item.created_at, item.updated_at⟩⟩

/-- Embedding of `FileStore.put_memory`: validate, namespace gate, read-only
gate, then upsert `{"content": content}` and re-read for timestamps. -/
def put_memory (cfg : Config) (st : StoreState) (ns key content : String)
    (now : Nat) : OpOut PutResult :=
  match validate_identifier ns "namespace" with
  | .error e => ⟨st, [], .error e⟩
  | .ok _ =>
  match validate_identifier key "key" with
  | .error e => ⟨st, [], .error e⟩
  | .ok _ =>
  if !(is_namespace_allowed cfg ns) then ⟨st, [], .error (.namespaceNotAllowed ns)⟩
  else if is_read_only cfg ns key then
    ⟨st, [], .error (.readOnlyViolation (ns ++ "/" ++ key))⟩
  else
    let st' := st.aput ns key (.dict [("content", .str content)]) now
    let item := st'.aget ns key
    ⟨st', [.putCall ns key, .getCall ns key],
      .ok ⟨ns, key, true, "Memory created/updated successfully",
        item.map Item.created_at, item.map Item.updated_at⟩⟩

/-- Embedding of `FileStore.update_memory`: like `put_memory`, but re-checks
existence with a backend `get` first and fails without writing when the
record is absent. -/
def update_memory (cfg : Config) (st : StoreState) (ns key content : String)
    (now : Nat) : OpOut PutResult :=
  match validate_identifier ns "namespace" with
  | .error e => ⟨st, [], .error e⟩
  | .ok _ =>
  match validate_identifier key "key" with
  | .error e => ⟨st, [], .error e⟩
  | .ok _ =>
  if !(is_namespace_allowed cfg ns) then ⟨st, [], .error (.namespaceNotAllowed ns)⟩
  else if is_read_only cfg ns key then
    ⟨st, [], .error (.readOnlyViolation (ns ++ "/" ++ key))⟩
  else
    match st.aget ns key with
    | Option.none => ⟨st, [.getCall ns key], .error (.recordNotFound ns key)⟩
    | some _ =>
      let st' := st.aput ns key (.dict [("content", .str content)]) now
      let item := st'.aget ns key
      ⟨st', [.getCall ns key, .putCall ns key, .getCall ns key],
        .ok ⟨ns, key, true, "Memory updated successfully",
          item.map Item.created_at, item.map Item.updated_at⟩⟩

/-- Embedding of `FileStore.list_memories`. -/
def list_memories (cfg : Config) (st : StoreState) (ns : String) :
    OpOut (List MemoryMeta) :=
  match validate_identifier ns "namespace" with
  | .error e => ⟨st, [], .error e⟩
  | .ok _ =>
  if !(is_namespace_allowed cfg ns) then ⟨st, [], .error (.namespaceNotAllowed ns)⟩
  else
    ⟨st, [.searchNsCall ns],
      .ok ((st.searchNs ns).map (fun kv =>
        ⟨kv.1, ns, is_read_only cfg ns kv.1,
          kv.2.created_at, kv.2.updated_at⟩))⟩

/-- Embedding of `FileStore.search_memories`: validate and gate, then filter
the `list_memories` result by `pattern.lower() in key.lower()`. -/
def search_memories (cfg : Config) (st : StoreState) (ns pat : String) :
    OpOut (List MemoryMeta) :=
  match validate_identifier ns "namespace" with
  | .error e => ⟨st, [], .error e⟩
  | .ok _ =>
  if !(is_namespace_allowed cfg ns) then ⟨st, [], .error (.namespaceNotAllowed ns)⟩
  else
    let o := list_memories cfg st ns
    match o.result with
    | .error e => ⟨o.state, o.calls, .error e⟩
    | .ok mems =>
      ⟨o.state, o.calls,
        .ok (mems.filter (fun m => pyContains (pyLowerStr m.key) (pyLowerStr pat)))⟩

/-- Counting fold of the `list_namespaces` grouping loop. -/
def addNsCount (acc : List NsInfo) (ns : String) : List NsInfo :=
  if acc.any (fun p => p.name == ns) then
    acc.map (fun p => if p.name == ns then ⟨p.name, p.file_count + 1⟩ else p)
  else acc ++ [⟨ns, 1⟩]

/-- Embedding of `FileStore.list_namespaces`: searches every item of the
tenant and groups by `item.namespace[0]` — the first element of the
`(USER_ID, namespace)` tuple, which is the user id — skipping namespaces the
(no-op) gate disallows. -/
def list_namespaces (cfg : Config) (st : StoreState) : OpOut (List NsInfo) :=
  ⟨st, [.searchAllCall],
    .ok (st.records.foldl (fun acc _r =>
      let ns0 := cfg.userId
      if !(is_namespace_allowed cfg ns0) then acc
      else addNsCount acc ns0) [])⟩

/-- Backend connectors the factory can hand out (`redis_connection`,
`postgresql_connection`, `mongodb_connection`). -/
inductive Connector where
  | redis_connection
  | postgresql_connection
  | mongodb_connection
deriving DecidableEq

/-- Configuration failure of the factory (`ValueError` on an unknown
`BACKEND`). -/
inductive FactoryError where
  | unsupportedBackend (backend : String)
deriving DecidableEq

/-- Embedding of `get_store_connection` from `store_factory.py`:
lower-case the configured `BACKEND` string and branch on the three
recognized names, raising for anything else. -/
def get_store_connection (backendSetting : String) :
    Except FactoryError Connector :=
  let backend := pyLowerStr backendSetting
  if backend == "redis" then .ok .redis_connection
  else if backend == "postgresql" then .ok .postgresql_connection
  else if backend == "mongodb" then .ok .mongodb_connection
  else .error (.unsupportedBackend backend)

/-- State of `RedisConnection` from `redis_langgraph_client.py`: the
`_setup_done` flag, instrumented with a count of how many times the
initialization body has executed. -/
structure RedisConnection where
  setup_done : Bool
  setupRuns : Nat
deriving DecidableEq

/-- Embedding of `RedisConnection.ensure_setup`: when the flag is unset, run
the initialization body (counted by `setupRuns`) and set the flag; otherwise
do nothing. -/
def ensure_setup (c : RedisConnection) : RedisConnection :=
  if c.setup_done then c
  else ⟨true, c.setupRuns + 1⟩

/-- Embedding of `RedisConnection.get_store`'s effect on the connection
state: it awaits `ensure_setup` and then yields a fresh store handle, which
does not touch the flag. -/
def get_store (c : RedisConnection) : RedisConnection := ensure_setup c

/-- A sequential call against the connection object. -/
inductive ConnCall where
  | ensureSetupCall
  | getStoreCall

/-- Run a sequence of connection calls from an initial connection state. -/
def runCalls (c : RedisConnection) (ops : List ConnCall) : RedisConnection :=
  ops.foldl (fun st op =>
    match op with
    | .ensureSetupCall => ensure_setup st
    | .getStoreCall => get_store st) c

/-- The namespace gate evaluates to `true` on every input. -/
theorem ns_allowed_true (cfg : Config) (ns : String) :
    is_namespace_allowed cfg ns = true := by
  by_cases h : cfg.allowedFiles.isEmpty <;> simp [is_namespace_allowed, h]

/-- Every error produced by the identifier validator is an
`invalidIdentifier` carrying the label and the offending string. -/
theorem validate_identifier_error_shape (id label : String) (e : StoreError)
    (h : validate_identifier id label = .error e) :
    e = .invalidIdentifier label id := by
  unfold validate_identifier at h
  split at h
  · exact (Except.error.inj h).symm
  · split at h
    · exact absurd h (by simp)
    · exact (Except.error.inj h).symm

/-- `find?` skips a block of elements that all refute the predicate. -/
theorem find_app_of_none {α : Type} (p : α → Bool) (l₁ l₂ : List α)
    (h : ∀ x ∈ l₁, p x = false) : (l₁ ++ l₂).find? p = l₂.find? p := by
  induction l₁ with
  | nil => rfl
  | cons a t ih =>
    have ha : p a = false := h a (by simp)
    show (match p a with
      | true => some a
      | false => (t ++ l₂).find? p) = l₂.find? p
    rw [ha]
    exact ih (fun x hx => h x (by simp [hx]))

/-- Elements surviving `filter (fun r => !(p r))` refute `p`. -/
theorem mem_filter_not {α : Type} (p : α → Bool) (l : List α) :
    ∀ x ∈ l.filter (fun r => !(p r)), p x = false := by
  intro x hx
  have h := (List.mem_filter.mp hx).2
  simpa using h

/-- Reading back the row just upserted returns the written value with the
upsert's timestamps. -/
theorem aget_aput_self (st : StoreState) (ns key : String) (v : PyValue)
    (now : Nat) :
    (st.aput ns key v now).aget ns key =
      some ⟨v, createdOf st ns key now, now⟩ := by
  unfold StoreState.aput StoreState.aget
  rw [find_app_of_none _ _ _ (mem_filter_not _ _)]
  simp [List.find?]

/-- Containment of the empty pattern always holds. -/
theorem containsL_nil (cs : List Char) : containsL cs [] = true := by
  cases cs <;> rfl

/-- Filtering a listing by the empty search pattern keeps every entry. -/
theorem filter_pyContains_nil (l : List MemoryMeta) :
    l.filter (fun m => pyContains (pyLowerStr m.key) (pyLowerStr "")) = l := by
  induction l with
  | nil => rfl
  | cons a t ih =>
    have hp : pyContains (pyLowerStr a.key) (pyLowerStr "") = true :=
      containsL_nil (pyLowerStr a.key).toList
    simp [List.filter_cons, hp, ih]

/-- Recognizer for a `NamespaceNotAllowed` outcome. -/
def failedNamespaceNotAllowed {α : Type} : Except StoreError α → Bool
  | .error (.namespaceNotAllowed _) => true
  | _ => false

/-- C2: the claim says the validator rejects every string containing a
character outside `[A-Za-z0-9_-]`, and the code's own error message promises
the same; but the compiled Python pattern `^[a-zA-Z0-9_-]+$` accepts
`"abc\n"` because `$` also matches just before a trailing newline, while the
sibling validator in `core/file_config.py` rejects that very string. -/
theorem C2_validator_trailing_newline :
    validate_identifier "abc\n" "key" = .ok () ∧
    isIdentChar '\n' = false ∧
    validate_file_name "abc\n" =
      .error "file_name must contain only alphanumeric characters, hyphens, and underscores. Got: abc\n" :=
  ⟨rfl, rfl, rfl⟩

/-- C6: the namespace gate returns `true` for every namespace and every
configured allow-list, and consequently no store operation ever fails with
`NamespaceNotAllowed`. -/
theorem C6_namespace_always_allowed :
    (∀ cfg ns, is_namespace_allowed cfg ns = true) ∧
    (∀ cfg st, failedNamespaceNotAllowed (list_namespaces cfg st).result = false) ∧
    (∀ cfg st ns, failedNamespaceNotAllowed (list_memories cfg st ns).result = false) ∧
    (∀ cfg st ns key, failedNamespaceNotAllowed (get_memory cfg st ns key).result = false) ∧
    (∀ cfg st ns key c now,
      failedNamespaceNotAllowed (put_memory cfg st ns key c now).result = false) ∧
    (∀ cfg st ns key c now,
      failedNamespaceNotAllowed (update_memory cfg st ns key c now).result = false) ∧
    (∀ cfg st ns p,
      failedNamespaceNotAllowed (search_memories cfg st ns p).result = false) := by
  refine ⟨ns_allowed_true, ?_, ?_, ?_, ?_, ?_, ?_⟩
  · intro cfg st
    simp [list_namespaces, failedNamespaceNotAllowed]
  · intro cfg st ns
    cases h1 : validate_identifier ns "namespace" with
    | error e =>
      have he := validate_identifier_error_shape _ _ _ h1
      subst he
      simp [list_memories, h1, failedNamespaceNotAllowed]
    | ok u =>
      cases u
      simp [list_memories, h1, ns_allowed_true, failedNamespaceNotAllowed]
  · intro cfg st ns key
    cases h1 : validate_identifier ns "namespace" with
    | error e =>
      have he := validate_identifier_error_shape _ _ _ h1
      subst he
      simp [get_memory, h1, failedNamespaceNotAllowed]
    | ok u =>
      cases u
      cases h2 : validate_identifier key "key" with
      | error e =>
        have he := validate_identifier_error_shape _ _ _ h2
        subst he
        simp [get_memory, h1, h2, failedNamespaceNotAllowed]
      | ok u2 =>
        cases u2
        cases h3 : st.aget ns key with
        | none =>
          simp [get_memory, h1, h2, h3, ns_allowed_true, failedNamespaceNotAllowed]
        | some it =>
          simp [get_memory, h1, h2, h3, ns_allowed_true, failedNamespaceNotAllowed]
  · intro cfg st ns key c now
    cases h1 : validate_identifier ns "namespace" with
    | error e =>
      have he := validate_identifier_error_shape _ _ _ h1
      subst he
      simp [put_memory, h1, failedNamespaceNotAllowed]
    | ok u =>
      cases u
      cases h2 : validate_identifier key "key" with
      | error e =>
        have he := validate_identifier_error_shape _ _ _ h2
        subst he
        simp [put_memory, h1, h2, failedNamespaceNotAllowed]
      | ok u2 =>
        cases u2
        by_cases h3 : is_read_only cfg ns key <;>
          simp [put_memory, h1, h2, h3, ns_allowed_true, failedNamespaceNotAllowed]
  · intro cfg st ns key c now
    cases h1 : validate_identifier ns "namespace" with
    | error e =>
      have he := validate_identifier_error_shape _ _ _ h1
      subst he
      simp [update_memory, h1, failedNamespaceNotAllowed]
    | ok u =>
      cases u
      cases h2 : validate_identifier key "key" with
      | error e =>
        have he := validate_identifier_error_shape _ _ _ h2
        subst he
        simp [update_memory, h1, h2, failedNamespaceNotAllowed]
      | ok u2 =>
        cases u2
        by_cases h3 : is_read_only cfg ns key
        · simp [update_memory, h1, h2, h3, ns_allowed_true, failedNamespaceNotAllowed]
        · cases h4 : st.aget ns key <;>
            simp [update_memory, h1, h2, h3, h4, ns_allowed_true,
              failedNamespaceNotAllowed]
  · intro cfg st ns p
    cases h1 : validate_identifier ns "namespace" with
    | error e =>
      have he := validate_identifier_error_shape _ _ _ h1
      subst he
      simp [search_memories, h1, failedNamespaceNotAllowed]
    | ok u =>
      cases u
      simp [search_memories, list_memories, h1, ns_allowed_true,
        failedNamespaceNotAllowed]

/-- Once the setup flag is set, any sequence of connection calls leaves the
connection state untouched. -/
theorem runCalls_of_done (ops : List ConnCall) :
    ∀ c : RedisConnection, c.setup_done = true → runCalls c ops = c := by
  induction ops with
  | nil => intro c _; rfl
  | cons op t ih =>
    intro c h
    have hstep : ensure_setup c = c := by simp [ensure_setup, h]
    cases op with
    | ensureSetupCall =>
      show runCalls (ensure_setup c) t = c
      rw [hstep]; exact ih c h
    | getStoreCall =>
      show runCalls (get_store c) t = c
      rw [show get_store c = c from hstep]; exact ih c h

/-- C9: the connector's initialization body runs at most once per process in
sequential execution — after any completed `ensure_setup` the flag is set,
every later `ensure_setup` or `get_store` call leaves the connection state
unchanged, and along any call sequence from the fresh connection the
initialization body executes at most once. -/
theorem C9_setup_at_most_once :
    (∀ c, (ensure_setup c).setup_done = true) ∧
    (∀ c ops, runCalls (ensure_setup c) ops = ensure_setup c) ∧
    (∀ ops, (runCalls ⟨false, 0⟩ ops).setupRuns ≤ 1) := by
  have hdone : ∀ c : RedisConnection, (ensure_setup c).setup_done = true := by
    intro c
    by_cases h : c.setup_done <;> simp [ensure_setup, h]
  refine ⟨hdone, ?_, ?_⟩
  · intro c ops
    exact runCalls_of_done ops (ensure_setup c) (hdone c)
  · intro ops
    cases ops with
    | nil => exact Nat.zero_le 1
    | cons op t =>
      have h1 : ensure_setup ⟨false, 0⟩ = ⟨true, 1⟩ := rfl
      cases op with
      | ensureSetupCall =>
        show (runCalls (ensure_setup ⟨false, 0⟩) t).setupRuns ≤ 1
        rw [h1, runCalls_of_done t ⟨true, 1⟩ rfl]
      | getStoreCall =>
        show (runCalls (get_store ⟨false, 0⟩) t).setupRuns ≤ 1
        rw [show get_store (⟨false, 0⟩ : RedisConnection) = ⟨true, 1⟩ from h1,
          runCalls_of_done t ⟨true, 1⟩ rfl]

/-- C8: the backend selector returns the Redis, PostgreSQL, or MongoDB
connector exactly when the configured name matches the corresponding backend
name case-insensitively, and fails with `UnsupportedBackend` on every other
string. -/
theorem C8_backend_selector (s : String) :
    (get_store_connection s = .ok .redis_connection ↔ pyLowerStr s = "redis") ∧
    (get_store_connection s = .ok .postgresql_connection ↔
      pyLowerStr s = "postgresql") ∧
    (get_store_connection s = .ok .mongodb_connection ↔
      pyLowerStr s = "mongodb") ∧
    ((pyLowerStr s ≠ "redis" ∧ pyLowerStr s ≠ "postgresql" ∧
        pyLowerStr s ≠ "mongodb") →
      get_store_connection s = .error (.unsupportedBackend (pyLowerStr s))) := by
  by_cases h1 : pyLowerStr s = "redis"
  · simp [get_store_connection, h1]
  · by_cases h2 : pyLowerStr s = "postgresql"
    · simp [get_store_connection, h1, h2]
    · by_cases h3 : pyLowerStr s = "mongodb"
      · simp [get_store_connection, h1, h2, h3]
      · simp [get_store_connection, h1, h2, h3]

/-- Witness for C8 at concrete inputs: `"Redis"` selects the Redis connector
case-insensitively and `"sqlite"` is rejected as unsupported. -/
theorem C8_backend_selector_witness :
    pyLowerStr "Redis" = "redis" ∧
    get_store_connection "Redis" = .ok .redis_connection ∧
    (pyLowerStr "sqlite" ≠ "redis" ∧ pyLowerStr "sqlite" ≠ "postgresql" ∧
      pyLowerStr "sqlite" ≠ "mongodb") ∧
    get_store_connection "sqlite" = .error (.unsupportedBackend "sqlite") := by
  refine ⟨by decide, (C8_backend_selector "Redis").1.mpr (by decide),
    ⟨by decide, by decide, by decide⟩, ?_⟩
  have h := (C8_backend_selector "sqlite").2.2.2
    ⟨by decide, by decide, by decide⟩
  rw [show pyLowerStr "sqlite" = "sqlite" from by decide] at h
  exact h

/-- C1: counterexample — with `"a/b"` configured read-only, namespace `"a"`
and key `"b"` are valid (and the namespace gate allows everything), yet
`put_memory` followed by `get_memory` does not return the written content:
the put fails with `ReadOnlyViolation` and the subsequent get still reports
the record missing instead of returning a result with content `"x"`. -/
theorem C1_counterexample :
    validate_identifier "a" "namespace" = .ok () ∧
    validate_identifier "b" "key" = .ok () ∧
    (put_memory ⟨"u", [], ["a/b"]⟩ ⟨[]⟩ "a" "b" "x" 0).result =
      .error (.readOnlyViolation "a/b") ∧
    (get_memory ⟨"u", [], ["a/b"]⟩
        (put_memory ⟨"u", [], ["a/b"]⟩ ⟨[]⟩ "a" "b" "x" 0).state
        "a" "b").result = .error (.recordNotFound "a" "b") :=
  ⟨rfl, rfl, rfl, rfl⟩

/-- C1 (amended): for every valid namespace and key whose pair is not in the
read-only set, `put_memory(ns, k, c)` followed by `get_memory(ns, k)` with no
intervening write returns a result whose content equals `c`. -/
theorem C1_roundtrip_amended (cfg : Config) (st : StoreState)
    (ns key c : String) (now : Nat)
    (hns : validate_identifier ns "namespace" = .ok ())
    (hkey : validate_identifier key "key" = .ok ())
    (hro : is_read_only cfg ns key = false) :
    (get_memory cfg (put_memory cfg st ns key c now).state ns key).result =
      .ok ⟨ns, key, .str c, false, createdOf st ns key now, now⟩ := by
  simp [put_memory, get_memory, hns, hkey, ns_allowed_true, hro,
    aget_aput_self, extractContent, List.lookup]

/-- Witness for C1 (amended) at a concrete input. -/
theorem C1_roundtrip_amended_witness :
    (validate_identifier "a" "namespace" = .ok () ∧
      validate_identifier "b" "key" = .ok () ∧
      is_read_only ⟨"u", [], []⟩ "a" "b" = false) ∧
    (get_memory ⟨"u", [], []⟩
        (put_memory ⟨"u", [], []⟩ ⟨[]⟩ "a" "b" "x" 5).state "a" "b").result =
      .ok ⟨"a", "b", .str "x", false, createdOf ⟨[]⟩ "a" "b" 5, 5⟩ :=
  ⟨⟨rfl, rfl, rfl⟩,
    C1_roundtrip_amended ⟨"u", [], []⟩ ⟨[]⟩ "a" "b" "x" 5 rfl rfl rfl⟩

/-- C3: `update_memory` on a valid, allowed, non-read-only pair with no
stored record fails with `RecordNotFound`, performs no write (the state is
unchanged and the only backend primitive invoked is the existence `get`), and
a subsequent `get_memory` still fails with `RecordNotFound`. -/
theorem C3_update_absent_no_write (cfg : Config) (st : StoreState)
    (ns key c : String) (now : Nat)
    (hns : validate_identifier ns "namespace" = .ok ())
    (hkey : validate_identifier key "key" = .ok ())
    (hro : is_read_only cfg ns key = false)
    (habs : st.aget ns key = Option.none) :
    update_memory cfg st ns key c now =
      ⟨st, [.getCall ns key], .error (.recordNotFound ns key)⟩ ∧
    (get_memory cfg (update_memory cfg st ns key c now).state ns key).result =
      .error (.recordNotFound ns key) := by
  have h1 : update_memory cfg st ns key c now =
      ⟨st, [.getCall ns key], .error (.recordNotFound ns key)⟩ := by
    simp [update_memory, hns, hkey, ns_allowed_true, hro, habs]
  refine ⟨h1, ?_⟩
  rw [h1]
  simp [get_memory, hns, hkey, ns_allowed_true, habs]

/-- Witness for C3 at a concrete input. -/
theorem C3_update_absent_no_write_witness :
    (validate_identifier "a" "namespace" = .ok () ∧
      validate_identifier "b" "key" = .ok () ∧
      is_read_only ⟨"u", [], []⟩ "a" "b" = false ∧
      StoreState.aget ⟨[]⟩ "a" "b" = Option.none) ∧
    (update_memory ⟨"u", [], []⟩ ⟨[]⟩ "a" "b" "x" 0 =
        ⟨⟨[]⟩, [.getCall "a" "b"], .error (.recordNotFound "a" "b")⟩ ∧
      (get_memory ⟨"u", [], []⟩
          (update_memory ⟨"u", [], []⟩ ⟨[]⟩ "a" "b" "x" 0).state
          "a" "b").result = .error (.recordNotFound "a" "b")) :=
  ⟨⟨rfl, rfl, rfl, rfl⟩,
    C3_update_absent_no_write ⟨"u", [], []⟩ ⟨[]⟩ "a" "b" "x" 0 rfl rfl rfl rfl⟩

/-- C4: counterexample — the claim quantifies over every `(namespace, key)`
pair whose `"namespace/key"` string is in the read-only set, but the
read-only configuration may name identifiers the validator rejects; for the
configured entry `"a b/c"`, `put_memory("a b", "c", …)` fails with
`InvalidIdentifier` (raised by the earlier validation step), not with
`ReadOnlyViolation`. -/
theorem C4_counterexample :
    is_read_only ⟨"u", [], ["a b/c"]⟩ "a b" "c" = true ∧
    (put_memory ⟨"u", [], ["a b/c"]⟩ ⟨[]⟩ "a b" "c" "x" 0).result =
      .error (.invalidIdentifier "namespace" "a b") :=
  ⟨rfl, rfl⟩

/-- C4 (amended): for every valid namespace and key whose `"namespace/key"`
string is in the configured read-only set, `put_memory` fails with
`ReadOnlyViolation` before any backend primitive is invoked, and the stored
state — hence the previously stored content — is unchanged. -/
theorem C4_readonly_put_amended (cfg : Config) (st : StoreState)
    (ns key c : String) (now : Nat)
    (hns : validate_identifier ns "namespace" = .ok ())
    (hkey : validate_identifier key "key" = .ok ())
    (hro : is_read_only cfg ns key = true) :
    put_memory cfg st ns key c now =
      ⟨st, [], .error (.readOnlyViolation (ns ++ "/" ++ key))⟩ := by
  simp [put_memory, hns, hkey, ns_allowed_true, hro]

/-- Witness for C4 (amended) at a concrete input. -/
theorem C4_readonly_put_amended_witness :
    (validate_identifier "a" "namespace" = .ok () ∧
      validate_identifier "b" "key" = .ok () ∧
      is_read_only ⟨"u", [], ["a/b"]⟩ "a" "b" = true) ∧
    put_memory ⟨"u", [], ["a/b"]⟩ ⟨[]⟩ "a" "b" "x" 0 =
      ⟨⟨[]⟩, [], .error (.readOnlyViolation ("a" ++ "/" ++ "b"))⟩ :=
  ⟨⟨rfl, rfl, rfl⟩,
    C4_readonly_put_amended ⟨"u", [], ["a/b"]⟩ ⟨[]⟩ "a" "b" "x" 0 rfl rfl rfl⟩

/-- C5: counterexample — with the non-empty allow-list `["foo"]` configured,
`put_memory` on the non-member key `"bar"` does not fail with a policy
rejection: it reaches the backend (the `put` and `get` primitives run), the
write succeeds, and a subsequent `get_memory` returns the stored content. -/
theorem C5_counterexample :
    (Config.mk "u" ["foo"] []).allowedFiles.isEmpty = false ∧
    (Config.mk "u" ["foo"] []).allowedFiles.contains "bar" = false ∧
    (put_memory ⟨"u", ["foo"], []⟩ ⟨[]⟩ "ns" "bar" "c" 0).result =
      .ok ⟨"ns", "bar", true, "Memory created/updated successfully",
        some 0, some 0⟩ ∧
    (put_memory ⟨"u", ["foo"], []⟩ ⟨[]⟩ "ns" "bar" "c" 0).calls =
      [.putCall "ns" "bar", .getCall "ns" "bar"] ∧
    (get_memory ⟨"u", ["foo"], []⟩
        (put_memory ⟨"u", ["foo"], []⟩ ⟨[]⟩ "ns" "bar" "c" 0).state
        "ns" "bar").result = .ok ⟨"ns", "bar", .str "c", false, 0, 0⟩ :=
  ⟨rfl, rfl, rfl, rfl, rfl⟩

/-- C5 (amended): the key allow-list does not gate the store operations at
all — `get_memory` and `put_memory` behave identically under any two
configured allow-lists (the list only filters the configured-file metadata
and tool descriptions loaded by `FileConfigManager`). -/
theorem C5_ops_ignore_allowlist (u : String) (ro al₁ al₂ : List String)
    (st : StoreState) (ns key c : String) (now : Nat) :
    get_memory ⟨u, al₁, ro⟩ st ns key = get_memory ⟨u, al₂, ro⟩ st ns key ∧
    put_memory ⟨u, al₁, ro⟩ st ns key c now =
      put_memory ⟨u, al₂, ro⟩ st ns key c now := by
  constructor <;> simp [get_memory, put_memory, is_namespace_allowed, is_read_only]

/-- C7: `search_memories(ns, p)` returns exactly the entries of
`list_memories(ns)` whose key contains `p` as a case-insensitive substring,
in the same order (it is the filter of the listing), and the empty pattern
returns the whole listing. -/
theorem C7_search_is_filter (cfg : Config) (st : StoreState) (ns p : String)
    (hns : validate_identifier ns "namespace" = .ok ()) :
    (∀ l, (list_memories cfg st ns).result = .ok l →
      (search_memories cfg st ns p).result =
        .ok (l.filter (fun m => pyContains (pyLowerStr m.key) (pyLowerStr p)))) ∧
    (search_memories cfg st ns "").result = (list_memories cfg st ns).result := by
  constructor
  · intro l hl
    simp [search_memories, hns, ns_allowed_true, hl]
  · simp [search_memories, list_memories, hns, ns_allowed_true,
      filter_pyContains_nil]

/-- Witness for C7 at a concrete input: in a namespace holding keys
`"alpha"` and `"beta"`, the pattern `"L"` matches exactly `"alpha"`
case-insensitively. -/
theorem C7_search_is_filter_witness :
    validate_identifier "n" "namespace" = .ok () ∧
    (search_memories ⟨"u", [], []⟩
        ⟨[("n", "alpha", ⟨.str "1", 0, 0⟩), ("n", "beta", ⟨.str "2", 0, 0⟩)]⟩
        "n" "L").result = .ok [⟨"alpha", "n", false, 0, 0⟩] := by
  refine ⟨rfl, ?_⟩
  have h := (C7_search_is_filter ⟨"u", [], []⟩
      ⟨[("n", "alpha", ⟨.str "1", 0, 0⟩), ("n", "beta", ⟨.str "2", 0, 0⟩)]⟩
      "n" "L" rfl).1
      [⟨"alpha", "n", false, 0, 0⟩, ⟨"beta", "n", false, 0, 0⟩] rfl
  exact h.trans rfl

/-- C10: content extraction in `get_memory` is total over every stored value
shape — for an existing record the operation returns successfully, with the
`"content"` field of a dictionary value, the empty string when that field is
absent, and the string rendering of any non-dictionary value. -/
theorem C10_content_extraction_total (cfg : Config) (st : StoreState)
    (ns key : String) (item : Item)
    (hns : validate_identifier ns "namespace" = .ok ())
    (hkey : validate_identifier key "key" = .ok ())
    (hget : st.aget ns key = some item) :
    (get_memory cfg st ns key).result =
      .ok ⟨ns, key, extractContent item.value, is_read_only cfg ns key,
        item.created_at, item.updated_at⟩ ∧
    (∀ fs x, item.value = .dict fs → fs.lookup "content" = some x →
      extractContent item.value = x) ∧
    (∀ fs, item.value = .dict fs → fs.lookup "content" = Option.none →
      extractContent item.value = .str "") ∧
    (item.value.isDict = false →
      extractContent item.value = .str (pyStr item.value)) := by
  refine ⟨?_, ?_, ?_, ?_⟩
  · simp [get_memory, hns, hkey, ns_allowed_true, hget]
  · intro fs x hfs hx
    rw [hfs]
    simp [extractContent, hx]
  · intro fs hfs hx
    rw [hfs]
    simp [extractContent, hx]
  · intro hd
    cases hv : item.value with
    | dict fs => rw [hv] at hd; simp [PyValue.isDict] at hd
    | str s => rfl
    | int n => rfl
    | bool b => rfl
    | none => rfl

/-- Witness for C10 at a concrete input: a stored non-dictionary value
(`5 : int`) is read back as its string rendering `"5"` without error. -/
theorem C10_content_extraction_total_witness :
    (validate_identifier "n" "namespace" = .ok () ∧
      validate_identifier "k" "key" = .ok () ∧
      StoreState.aget ⟨[("n", "k", ⟨.int 5, 1, 2⟩)]⟩ "n" "k" =
        some ⟨.int 5, 1, 2⟩) ∧
    (get_memory ⟨"u", [], []⟩ ⟨[("n", "k", ⟨.int 5, 1, 2⟩)]⟩ "n" "k").result =
      .ok ⟨"n", "k", .str "5", false, 1, 2⟩ := by
  refine ⟨⟨rfl, rfl, rfl⟩, ?_⟩
  have h := (C10_content_extraction_total ⟨"u", [], []⟩
      ⟨[("n", "k", ⟨.int 5, 1, 2⟩)]⟩ "n" "k" ⟨.int 5, 1, 2⟩ rfl rfl rfl).1
  exact h.trans rfl
